import Mathlib

/-!
Shallow embedding of `src/pages/main.ts` (the single source file of the
repository): calendar helpers used by moment-based date handling, the
year-stacking transform of `renderCharts`, the chart creation/update logic of
`createChart`, and the state transitions of `loadData` / `search` /
`renderCharts` on the page state.

Modelling conventions:
  * Timestamps arrive from the API as ISO strings; `moment(date)` parses them
    and the code only ever reads the calendar year (`format("YYYY")`) and the
    day of year (`dayOfYear()`).  We model a parsed timestamp as a `Date`
    record (year, month, day) and implement `dayOfYear` by the proleptic
    Gregorian calendar rules that moment uses.
  * JavaScript arrays are dynamically sized: assigning to index `i` of an
    array of length `L ≤ i` extends the array.  `writeSlot` models exactly
    this (`arr[i] = v`), which is what `yearlyData[year].minTemps[dayOfYear] = …`
    performs on a JS array.
  * `number | null | undefined` slot values are modelled as `Option Value`;
    temperature values themselves are modelled as integers since no claim
    depends on their arithmetic.
  * Colors `rgba(r, g, b, a)` are modelled as an `RGBA` record with an exact
    rational alpha; the float expression for the opacity is transcribed over ℚ.
-/

set_option maxRecDepth 40000

/-- Temperature values; the claims are independent of the numeric value type. -/
abbrev Value := Int

/-- A parsed calendar date (what the code observes of a timestamp through
`moment(date).format("YYYY")` and `moment(date).dayOfYear()`). -/
structure Date where
  year : Nat
  month : Nat
  day : Nat
deriving Repr, DecidableEq

/-- Gregorian leap-year rule (used by moment / JS `Date`). -/
def isLeapYear (y : Nat) : Bool :=
  (y % 4 == 0 && y % 100 != 0) || y % 400 == 0

/-- Lengths of the twelve months of year `y`. -/
def monthLengths (y : Nat) : List Nat :=
  [31, if isLeapYear y then 29 else 28, 31, 30, 31, 30, 31, 31, 30, 31, 30, 31]

/-- `moment(date).dayOfYear()`: the 1-based ordinal of the date in its year. -/
def dayOfYear (d : Date) : Nat :=
  ((monthLengths d.year).take (d.month - 1)).sum + d.day

/-- A structurally valid calendar date (month 1..12, day within the month). -/
def ValidDate (d : Date) : Prop :=
  1 ≤ d.month ∧ d.month ≤ 12 ∧ 1 ≤ d.day ∧ d.day ≤ (monthLengths d.year).getD (d.month - 1) 0

instance (d : Date) : Decidable (ValidDate d) := by
  unfold ValidDate; infer_instance

/-- One match returned by the geocoding endpoint. -/
structure GeocodingResult where
  lat : String
  lon : String
  display_name : String
deriving Repr, DecidableEq

/-- The timeseries payload.  The geojson nesting
`features[0].properties.parameters.{TN,TX}.data` of the response is flattened
to the two parallel value lists `tn` / `tx` that `renderCharts` reads. -/
structure SpartacusResult where
  timestamps : List Date
  tn : List Value
  tx : List Value
deriving Repr, DecidableEq

/-- JS assignment `l[i] = v` on a dynamically sized array: in-range indices are
overwritten, an index past the end extends the array (holes read back as
"no data", like `null`). -/
def writeSlot (l : List (Option Value)) (i : Nat) (v : Option Value) :
    List (Option Value) :=
  if i < l.length then l.set i v
  else l ++ List.replicate (i - l.length) none ++ [v]

/-- The per-year pair of buckets held in `yearlyData[year]`. -/
structure YearBuckets where
  minTemps : List (Option Value)
  maxTemps : List (Option Value)
deriving Repr, DecidableEq

/-- First `dates.forEach` of the stacked branch: create a
`{ minTemps: Array(365).fill(null), maxTemps: Array(365).fill(null) }` entry
for each year present, keyed by the year, first occurrence first. -/
def yearlyInit (dates : List Date) : List (Nat × YearBuckets) :=
  dates.foldl
    (fun acc d =>
      if acc.any (fun p => p.1 == d.year) then acc
      else acc ++ [(d.year, ⟨List.replicate 365 none, List.replicate 365 none⟩)])
    []

/-- Point update of the association list at key `y` (JS object property
mutation `yearlyData[year] = …`). -/
def updateYear (m : List (Nat × YearBuckets)) (y : Nat)
    (f : YearBuckets → YearBuckets) : List (Nat × YearBuckets) :=
  m.map fun p => if p.1 == y then (p.1, f p.2) else p

/-- One iteration of the second `dates.forEach`: write `minTemp[index]` and
`maxTemp[index]` into position `dayOfYear - 1` of the buckets of the sample's
year. -/
def populateStep (tn tx : List Value) (m : List (Nat × YearBuckets))
    (p : Nat × Date) : List (Nat × YearBuckets) :=
  updateYear m p.2.year fun b =>
    ⟨writeSlot b.minTemps (dayOfYear p.2 - 1) (tn.get? p.1),
     writeSlot b.maxTemps (dayOfYear p.2 - 1) (tx.get? p.1)⟩

/-- The `yearlyData` map as it stands after both `forEach` loops of the
stacked branch of `renderCharts`. -/
def yearlyData (r : SpartacusResult) : List (Nat × YearBuckets) :=
  r.timestamps.enum.foldl (populateStep r.tn r.tx) (yearlyInit r.timestamps)

/-- `Object.keys(yearlyData).sort()`: the year keys in ascending order (the
keys are the 4-digit `format("YYYY")` strings, whose lexicographic order
coincides with numeric order). -/
def sortedYears (m : List (Nat × YearBuckets)) : List Nat :=
  List.insertionSort (· ≤ ·) (m.map Prod.fst)

/-- `yearlyData[year]` lookup (the key is always present when used). -/
def lookupBuckets (m : List (Nat × YearBuckets)) (y : Nat) : YearBuckets :=
  (((m.find? fun p => p.1 == y).map Prod.snd).getD ⟨[], []⟩)

/-- An `rgba(r, g, b, a)` color literal. -/
structure RGBA where
  r : Nat
  g : Nat
  b : Nat
  a : ℚ
deriving Repr, DecidableEq

/-- The opacity computed for the year at ascending index `i` of `n` years:
`(1 - baseOpacity * (years.length - index)) * 0.6 + 0.4` with
`baseOpacity = 1 / years.length`, overridden to `1` for the last index. -/
def yearOpacity (n i : Nat) : ℚ :=
  let baseOpacity : ℚ := 1 / n
  let o : ℚ := (1 - baseOpacity * ((n : ℚ) - (i : ℚ))) * 0.6 + 0.4
  if i == n - 1 then 1 else o

/-- A chart.js dataset as assembled by `renderCharts` (optional fields that
`createChart` may fill in are `Option`s). -/
structure Dataset where
  label : String
  data : List (Option Value)
  borderColor : RGBA
  borderWidth : Option Nat
  fill : Bool
  pointRadius : Option Nat
deriving Repr, DecidableEq

/-- Datasets pushed by the two `years.forEach` loops of the stacked branch,
given the already bucketed `ydata` and the sorted year list `ys`. -/
def stackedDatasetsFrom (ydata : List (Nat × YearBuckets)) (ys : List Nat)
    (firstLastYear minTemp maxTemp : Bool) : List Dataset :=
  let minDatasets :=
    ys.enum.foldl
      (fun ds p =>
        let index := p.1
        let year := p.2
        let opacity := yearOpacity ys.length index
        let isFirstOrLast := index == 0 || index == ys.length - 1
        if firstLastYear && !isFirstOrLast then ds
        else if minTemp then
          ds ++ [{ label := "Min Temp " ++ toString year,
                   data := (lookupBuckets ydata year).minTemps,
                   borderColor :=
                     if index == ys.length - 1 then ⟨54, 100, 235, 1⟩
                     else ⟨54, 162, 235, opacity⟩,
                   borderWidth := some (if index == ys.length - 1 then 2 else 1),
                   fill := false,
                   pointRadius := none }]
        else ds)
      []
  let maxDatasets :=
    ys.enum.foldl
      (fun ds p =>
        let index := p.1
        let year := p.2
        let opacity := yearOpacity ys.length index
        let isFirstOrLast := index == 0 || index == ys.length - 1
        if firstLastYear && !isFirstOrLast then ds
        else if maxTemp then
          ds ++ [{ label := "Max Temp " ++ toString year,
                   data := (lookupBuckets ydata year).maxTemps,
                   borderColor :=
                     if index == ys.length - 1 then ⟨255, 50, 50, 1⟩
                     else ⟨255, 99, 132, opacity⟩,
                   borderWidth := some (if index == ys.length - 1 then 2 else 1),
                   fill := false,
                   pointRadius := none }]
        else ds)
      []
  minDatasets ++ maxDatasets

/-- The full dataset list produced by the stacked branch of `renderCharts`. -/
def stackedDatasets (r : SpartacusResult) (firstLastYear minTemp maxTemp : Bool) :
    List Dataset :=
  stackedDatasetsFrom (yearlyData r) (sortedYears (yearlyData r))
    firstLastYear minTemp maxTemp

/-- English short month names as rendered by moment's `"MMM"` format token. -/
def monthName (m : Nat) : String :=
  (["Jan", "Feb", "Mar", "Apr", "May", "Jun",
    "Jul", "Aug", "Sep", "Oct", "Nov", "Dec"]).getD (m - 1) ""

/-- moment's `format("MMM D")` rendering of a date. -/
def formatMMMD (d : Date) : String :=
  monthName d.month ++ " " ++ toString d.day

/-- Walk the month lengths to locate a 1-based day-of-year: returns the
(month, day) pair it falls on. -/
def monthDayOfDoy : List Nat → Nat → Nat → Nat × Nat
  | [], m, doy => (m, doy)
  | len :: rest, m, doy =>
      if doy ≤ len then (m, doy) else monthDayOfDoy rest (m + 1) (doy - len)

/-- The date at 1-based day-of-year `doy` of year `y` (for `doy` within the
year's length). -/
def dateOfDayOfYear (y doy : Nat) : Date :=
  let md := monthDayOfDoy (monthLengths y) 1 doy
  ⟨y, md.1, md.2⟩

/-- The x-axis labels of the stacked view:
`Array.from({length: 365}, (_, i) => moment("0000-01-01").add(i, "days").format("MMM D"))`.
moment parses `"0000-01-01"` as January 1 of year 0 and `add(i, "days")` walks
the proleptic Gregorian calendar, so label `i` is day-of-year `i + 1` of year
0 (year 0 has 366 days, so all 365 additions stay inside year 0). -/
def stackedXLabels : List String :=
  (List.range 365).map fun i => formatMMMD (dateOfDayOfYear 0 (i + 1))

/-- Re-serialization of a timestamp used where the code passes the raw
timestamp strings through as chart labels. -/
def pad2 (s : String) : String :=
  if s.length ≥ 2 then s else String.mk (List.replicate (2 - s.length) '0') ++ s

/-- ISO date rendering of a parsed timestamp. -/
def isoString (d : Date) : String :=
  toString d.year ++ "-" ++ pad2 (toString d.month) ++ "-" ++ pad2 (toString d.day)

/-!  `createChart`: the chart handle stored on the canvas (`canvas.__chart`)
and its create-or-update contract. -/

/-- The observable state of the chart.js instance bound to a canvas: its
labels, datasets, the per-day date display format
(`options.scales.x.time.displayFormats.day`), and how many times `update()`
has been triggered on it. -/
structure ChartInst where
  labels : List String
  datasets : List Dataset
  dayFormat : String
  updates : Nat
deriving Repr, DecidableEq

/-- The normalization `createChart` applies to every incoming dataset:
`pointRadius = 0`, and `borderWidth = 1` when `borderWidth` is falsy
(absent or `0`). -/
def normalizeDatasets (ds : List Dataset) : List Dataset :=
  ds.map fun d =>
    { d with
      pointRadius := some 0,
      borderWidth :=
        match d.borderWidth with
        | none => some 1
        | some 0 => some 1
        | some w => some w }

/-- `createChart(canvas, labels, datasets, dateFormat)` acting on the handle
currently bound to the canvas (`none` = no chart yet).  Returns the new handle
and whether a `new Chart(...)` was constructed. -/
def createChart (prev : Option ChartInst) (labels : List String)
    (datasets : List Dataset) (dateFormat : String) : Option ChartInst × Bool :=
  let ds := normalizeDatasets datasets
  match prev with
  | some chart =>
      (some { chart with
                labels := labels
                datasets := ds
                dayFormat := dateFormat
                updates := chart.updates + 1 }, false)
  | none => (some ⟨labels, ds, dateFormat, 0⟩, true)

/-- The arguments of one `createChart` invocation on a fixed canvas. -/
structure ChartCall where
  labels : List String
  datasets : List Dataset
  dateFormat : String

/-- Run a sequence of `createChart` calls against one canvas, counting how
many `new Chart(...)` constructions happen. -/
def runCharts : Option ChartInst → List ChartCall → Option ChartInst × Nat
  | st, [] => (st, 0)
  | st, call :: rest =>
      let r := createChart st call.labels call.datasets call.dateFormat
      let rec' := runCharts r.1 rest
      (rec'.1, (if r.2 then 1 else 0) + rec'.2)

/-!  The page state and the event handlers `loadData`, `renderCharts`,
`search` of `MainPage`. -/

/-- The mutable fields of `MainPage` that the modelled handlers read or
write, together with the values of the form inputs they consult. -/
structure MainState where
  isLoading : Bool
  error : String
  searchResults : List GeocodingResult
  startDateValue : String
  endDateValue : String
  stackYears : Bool
  firstLastYear : Bool
  minTemp : Bool
  maxTemp : Bool
  data : Option SpartacusResult
  chart : Option ChartInst
deriving Repr, DecidableEq

/-- The single user-visible error string of both failure paths. -/
def genericError : String := "Whoopsies, da hat etwas nicht funktioniert"

/-- Whether the error banner is rendered (`this.error ? renderError(...) : ""`;
the empty string is falsy). -/
def errorShown (s : MainState) : Bool := s.error != ""

/-- `renderCharts()`: early return when no data; otherwise build datasets
(stacked or flat) and call `createChart` on the canvas. -/
def renderCharts (s : MainState) : MainState :=
  match s.data with
  | none => s
  | some data =>
      if s.stackYears then
        let datasets := stackedDatasets data s.firstLastYear s.minTemp s.maxTemp
        { s with chart := (createChart s.chart stackedXLabels datasets "DD-MM").1 }
      else
        let datasets :=
          (if s.minTemp then
            [{ label := "Min. Temp", data := data.tn.map some,
               borderColor := ⟨54, 162, 235, 1⟩, borderWidth := none,
               fill := false, pointRadius := none }] else []) ++
          (if s.maxTemp then
            [{ label := "Max. Temp", data := data.tx.map some,
               borderColor := ⟨255, 99, 132, 1⟩, borderWidth := none,
               fill := false, pointRadius := none }] else [])
        { s with
            chart :=
              (createChart s.chart (data.timestamps.map isoString) datasets
                "YYYY-MM-DD").1 }

/-- Outcome of the awaited timeseries fetch: a parsed successful response, or
a failure (non-2xx status or network error — both throw and land in the same
`catch` block). -/
inductive FetchOutcome where
  | success (d : SpartacusResult)
  | failure
deriving Repr, DecidableEq

/-- What one `loadData()` run did: the resulting state, whether the network
request was issued, and whether `renderCharts()` was invoked. -/
structure LoadResult where
  state : MainState
  fetched : Bool
  rendered : Bool
deriving Repr, DecidableEq

/-- `loadData()`: clear the error, skip when either date input is empty,
otherwise set the loading flag, fetch, and on success store the data and
render; on failure set the generic error.  The `finally` clause clears the
loading flag on both paths. -/
def loadData (s : MainState) (outcome : FetchOutcome) : LoadResult :=
  let s := { s with error := "" }
  if s.startDateValue.length == 0 || s.endDateValue.length == 0 then
    ⟨s, false, false⟩
  else
    let s := { s with isLoading := true }
    match outcome with
    | .success d =>
        let s := renderCharts { s with data := some d }
        ⟨{ s with isLoading := false }, true, true⟩
    | .failure =>
        ⟨{ s with error := genericError, isLoading := false }, true, false⟩

/-- Outcome of the awaited geocoding fetch. -/
inductive SearchOutcome where
  | success (results : List GeocodingResult)
  | failure
deriving Repr, DecidableEq

/-- `search()`: on success keep the first 3 results; on failure set the
generic error (the previous results are not touched).  The `finally` clause
sets the loading flag to false on both paths. -/
def search (s : MainState) (outcome : SearchOutcome) : MainState :=
  match outcome with
  | .success results =>
      { s with searchResults := results.take 3, isLoading := false }
  | .failure =>
      { s with error := genericError, isLoading := false }

/-!  `dateString` and the default date range. -/

/-- What `dateString` observes of a JS `Date`: `getFullYear()` (the calendar
year), `getMonth()` (0-based month), `getDate()` (1-based day of month). -/
structure JSDate where
  fullYear : Nat
  month : Nat
  date : Nat
deriving Repr, DecidableEq

/-- `String.prototype.padStart(2, "0")`. -/
def padStart2 (s : String) : String :=
  if s.length ≥ 2 then s else String.mk (List.replicate (2 - s.length) '0') ++ s

/-- The `dateString` helper of `main.ts`:
`getFullYear() + "-" + (getMonth() + 1).padStart(2, "0") + "-" + (getDate() + 1).padStart(2, "0")`. -/
def dateString (d : JSDate) : String :=
  toString d.fullYear ++ "-" ++ padStart2 (toString (d.month + 1)) ++ "-" ++
    padStart2 (toString (d.date + 1))

/-- `startDate = new Date(new Date().getFullYear() - 2, 0, 1)`: January 1 of
the year two years before the current one. -/
def defaultStartDate (currentYear : Nat) : JSDate :=
  ⟨currentYear - 2, 0, 1⟩

/-!  Reference (specification-side) descriptions of the bucketed data, used to
state what the transform computes. -/

/-- The value a bucket slot should hold: the `vals` entry of the last indexed
sample of year `y` whose day-of-year is `i + 1`, if any (later samples
overwrite earlier ones at the same slot). -/
def specSlot (samples : List (Nat × Date)) (vals : List Value) (y i : Nat) :
    Option Value :=
  match (samples.filter fun p => p.2.year == y && dayOfYear p.2 == i + 1).getLast? with
  | some p => vals.get? p.1
  | none => none

/-- The length a year's bucket ends up with: 365 from initialization, grown to
366 exactly when some sample of year `y` has day-of-year 366 (JS assignment
past the end extends the array). -/
def bucketLen (samples : List (Nat × Date)) (y : Nat) : Nat :=
  if samples.any (fun p => p.2.year == y && dayOfYear p.2 == 366) then 366 else 365

/-- Invariant tying the `yearlyData` association list after processing
`samples` to the reference description. -/
def BucketInv (tn tx : List Value) (samples : List (Nat × Date))
    (m : List (Nat × YearBuckets)) : Prop :=
  ∀ y b, (y, b) ∈ m →
    b.minTemps.length = bucketLen samples y ∧
    b.maxTemps.length = bucketLen samples y ∧
    (∀ i, b.minTemps.getD i none = specSlot samples tn y i) ∧
    (∀ i, b.maxTemps.getD i none = specSlot samples tx y i)

/-!  Concrete sample inputs used to instantiate the theorems. -/

/-- A series holding exactly the day-of-year-366 sample Dec 31, 2020. -/
def leapDaySeries : SpartacusResult := ⟨[⟨2020, 12, 31⟩], [7], [9]⟩

/-- A series with one sample in each of 2020 and 2021. -/
def twoYearSeries : SpartacusResult :=
  ⟨[⟨2020, 1, 1⟩, ⟨2021, 1, 1⟩], [1, 2], [3, 4]⟩

/-- A page state whose start-date input is empty (with a stale error shown). -/
def emptyStartState : MainState :=
  ⟨false, "alter Fehler", [], "", "2024-01-01", true, true, true, true, none, none⟩

/-- A page state whose end-date input is empty (with a stale error shown). -/
def emptyEndState : MainState :=
  ⟨true, "alter Fehler", [], "2022-01-01", "", false, false, false, false, none, none⟩

/-- A page state with both date inputs filled. -/
def filledState : MainState :=
  ⟨false, "", [], "2022-01-01", "2024-01-01", true, true, true, true,
   some ⟨[⟨2020, 1, 1⟩], [1], [2]⟩, some ⟨["x"], [], "DD-MM", 3⟩⟩

/-- Sanity check of the bucket transform on a two-sample series. -/
theorem yearlyData_twoSamples :
    yearlyData ⟨[⟨2020, 1, 1⟩, ⟨2020, 1, 2⟩], [5, 6], [7, 8]⟩ =
      [(2020, ⟨(List.replicate 365 (none : Option Value)).set 0 (some 5) |>.set 1 (some 6),
               (List.replicate 365 (none : Option Value)).set 0 (some 7) |>.set 1 (some 8)⟩)] := by
  decide

theorem writeSlot_length (l : List (Option Value)) (i : Nat) (v : Option Value) :
    (writeSlot l i v).length = max l.length (i + 1) := by
  unfold writeSlot
  split
  · rw [List.length_set]; omega
  · simp only [List.length_append, List.length_replicate, List.length_singleton]; omega

theorem getD_replicate_none (n i : Nat) :
    (List.replicate n (none : Option Value)).getD i none = none := by
  rcases lt_or_ge i n with h | h
  · rw [List.getD_eq_getElem _ _ (by simpa using h)]
    simp
  · exact List.getD_eq_default _ _ (by simpa using h)

theorem getD_writeSlot (l : List (Option Value)) (i j : Nat) (v : Option Value) :
    (writeSlot l i v).getD j none = if j = i then v else l.getD j none := by
  unfold writeSlot
  split
  · rename _ => hlen
    by_cases hji : j = i
    · subst hji
      rw [if_pos rfl, List.getD_eq_getD_get?, List.get?_eq_getElem?,
        List.getElem?_set_self']
      simp [List.getElem?_eq_getElem hlen]
    · rw [if_neg hji, List.getD_eq_getD_get?, List.getD_eq_getD_get?,
        List.get?_eq_getElem?, List.get?_eq_getElem?, List.getElem?_set_ne (Ne.symm hji)]
  · rename _ => hlen
    push_neg at hlen
    have hpadlen : (l ++ List.replicate (i - l.length) none).length = i := by
      simp only [List.length_append, List.length_replicate]; omega
    rcases lt_or_ge j l.length with hj | hj
    · rw [if_neg (by omega)]
      rw [List.getD_append _ _ _ _ (by omega)]
      exact List.getD_append _ _ _ _ hj
    · by_cases hji : j = i
      · subst hji
        rw [if_pos rfl, List.getD_append_right _ _ _ _ (by omega), hpadlen]
        simp
      · rw [if_neg hji, List.getD_eq_default _ _ hj]
        rcases lt_or_ge j i with hji2 | hji2
        · rw [List.getD_append _ _ _ _ (by omega),
            List.getD_append_right _ _ _ _ hj]
          exact getD_replicate_none _ _
        · rw [List.getD_append_right _ _ _ _ (by omega), hpadlen,
            List.getD_eq_default]
          simp only [List.length_singleton]
          omega

theorem dayOfYear_bounds (d : Date) (h : ValidDate d) :
    1 ≤ dayOfYear d ∧ dayOfYear d ≤ 366 := by
  obtain ⟨h1, h2, h3, h4⟩ := h
  rcases d with ⟨y, m, day⟩
  simp only [dayOfYear, monthLengths] at h4 ⊢
  dsimp only at h1 h2 h3 h4 ⊢
  have hfb : ∃ feb, (if isLeapYear y then 29 else 28) = feb ∧ 28 ≤ feb ∧ feb ≤ 29 := by
    rcases Bool.eq_false_or_eq_true (isLeapYear y) with hly | hly <;>
      rw [hly] <;> simp
  obtain ⟨feb, hfeb, hf1, hf2⟩ := hfb
  rw [hfeb] at h4 ⊢
  interval_cases m <;> simp_all <;> omega

theorem mem_yearlyInit (dates : List Date) :
    ∀ p ∈ yearlyInit dates,
      p.2 = ⟨List.replicate 365 none, List.replicate 365 none⟩ := by
  unfold yearlyInit
  suffices h :
      ∀ (ds : List Date) (acc : List (Nat × YearBuckets)),
        (∀ p ∈ acc, p.2 = ⟨List.replicate 365 none, List.replicate 365 none⟩) →
        ∀ p ∈ ds.foldl
            (fun acc d =>
              if acc.any (fun p => p.1 == d.year) then acc
              else acc ++ [(d.year, ⟨List.replicate 365 none, List.replicate 365 none⟩)])
            acc,
          p.2 = ⟨List.replicate 365 none, List.replicate 365 none⟩ by
    exact h dates [] (by simp)
  intro ds
  induction ds with
  | nil => intro acc hacc p hp; exact hacc p hp
  | cons d rest ih =>
      intro acc hacc p hp
      rw [List.foldl_cons] at hp
      refine ih _ ?_ p hp
      split
      · exact hacc
      · intro q hq
        rcases List.mem_append.1 hq with hq | hq
        · exact hacc q hq
        · simp at hq; subst hq; rfl

theorem enumFrom_snd_valid (l : List Date) (P : Date → Prop)
    (h : ∀ d ∈ l, P d) : ∀ n, ∀ p ∈ l.enumFrom n, P p.2 := by
  induction l with
  | nil => intro n p hp; simp [List.enumFrom] at hp
  | cons a t ih =>
      intro n p hp
      rw [List.enumFrom] at hp
      rcases List.mem_cons.1 hp with hp | hp
      · subst hp; exact h a (by simp)
      · exact ih (fun d hd => h d (by simp [hd])) (n + 1) p hp

theorem enumFrom_any (l : List Date) (q : Date → Bool) :
    ∀ n, ((l.enumFrom n).any fun p => q p.2) = l.any q := by
  induction l with
  | nil => intro n; rfl
  | cons a t ih => intro n; simp only [List.enumFrom, List.any_cons, ih]

theorem enum_any (l : List Date) (q : Date → Bool) :
    (l.enum.any fun p => q p.2) = l.any q :=
  enumFrom_any l q 0

theorem bucketLen_le (samples : List (Nat × Date)) (y : Nat) :
    365 ≤ bucketLen samples y ∧ bucketLen samples y ≤ 366 := by
  unfold bucketLen; split <;> omega

theorem bucketLen_append (samples : List (Nat × Date)) (p : Nat × Date) (y : Nat) :
    bucketLen (samples ++ [p]) y =
      if p.2.year = y ∧ dayOfYear p.2 = 366 then 366 else bucketLen samples y := by
  unfold bucketLen
  rw [List.any_append]
  have hiff : (p.2.year == y && dayOfYear p.2 == 366) = true ↔
      (p.2.year = y ∧ dayOfYear p.2 = 366) := by simp
  by_cases hpa : p.2.year = y ∧ dayOfYear p.2 = 366
  · have hp : (p.2.year == y && dayOfYear p.2 == 366) = true := hiff.2 hpa
    simp only [List.any_cons, List.any_nil, Bool.or_false]
    rw [hp, if_pos hpa]
    simp
  · have hp : (p.2.year == y && dayOfYear p.2 == 366) = false := by
      rcases Bool.eq_false_or_eq_true (p.2.year == y && dayOfYear p.2 == 366) with h | h
      · exact absurd (hiff.1 h) hpa
      · exact h
    simp only [List.any_cons, List.any_nil, Bool.or_false]
    rw [hp, if_neg hpa, Bool.or_false]

theorem specSlot_append (samples : List (Nat × Date)) (vals : List Value)
    (y i : Nat) (p : Nat × Date) :
    specSlot (samples ++ [p]) vals y i =
      if p.2.year = y ∧ dayOfYear p.2 = i + 1 then vals.get? p.1
      else specSlot samples vals y i := by
  unfold specSlot
  rw [List.filter_append]
  by_cases h1 : p.2.year = y <;> by_cases h2 : dayOfYear p.2 = i + 1
  · simp only [List.filter_cons, List.filter_nil, h1, h2, beq_self_eq_true,
      Bool.and_self, if_pos, List.getLast?_concat]
    simp [h1, h2]
  · simp only [List.filter_cons, List.filter_nil]
    rw [if_neg (by simp [h1, h2]), if_neg (by simp [h1, h2])]
    simp
  · simp only [List.filter_cons, List.filter_nil]
    rw [if_neg (by simp [h1, h2]), if_neg (by simp [h1, h2])]
    simp
  · simp only [List.filter_cons, List.filter_nil]
    rw [if_neg (by simp [h1, h2]), if_neg (by simp [h1, h2])]
    simp

theorem bucketInv_step (tn tx : List Value) (samples : List (Nat × Date))
    (m : List (Nat × YearBuckets)) (p : Nat × Date) (hv : ValidDate p.2)
    (h : BucketInv tn tx samples m) :
    BucketInv tn tx (samples ++ [p]) (populateStep tn tx m p) := by
  intro y b hmem
  unfold populateStep updateYear at hmem
  rw [List.mem_map] at hmem
  obtain ⟨q, hq, hfq⟩ := hmem
  obtain ⟨hb1, hb2, hs1, hs2⟩ := h q.1 q.2 (by simpa using hq)
  obtain ⟨hdoy1, hdoy2⟩ := dayOfYear_bounds p.2 hv
  by_cases hc : q.1 = p.2.year
  · rw [if_pos (by simpa using hc)] at hfq
    obtain ⟨rfl, rfl⟩ : q.1 = y ∧
        (YearBuckets.mk (writeSlot q.2.minTemps (dayOfYear p.2 - 1) (tn.get? p.1))
          (writeSlot q.2.maxTemps (dayOfYear p.2 - 1) (tx.get? p.1))) = b := by
      exact ⟨congrArg Prod.fst hfq, congrArg Prod.snd hfq⟩
    refine ⟨?_, ?_, ?_, ?_⟩
    · rw [writeSlot_length, hb1, bucketLen_append]
      have hle := bucketLen_le samples q.1
      by_cases h366 : dayOfYear p.2 = 366
      · rw [if_pos ⟨hc.symm, h366⟩]; omega
      · rw [if_neg (by tauto)]; omega
    · rw [writeSlot_length, hb2, bucketLen_append]
      have hle := bucketLen_le samples q.1
      by_cases h366 : dayOfYear p.2 = 366
      · rw [if_pos ⟨hc.symm, h366⟩]; omega
      · rw [if_neg (by tauto)]; omega
    · intro i
      rw [getD_writeSlot, specSlot_append]
      by_cases hidx : i = dayOfYear p.2 - 1
      · rw [if_pos hidx, if_pos ⟨hc.symm, by omega⟩]
      · rw [if_neg hidx, if_neg (by rintro ⟨_, h⟩; omega), hs1]
    · intro i
      rw [getD_writeSlot, specSlot_append]
      by_cases hidx : i = dayOfYear p.2 - 1
      · rw [if_pos hidx, if_pos ⟨hc.symm, by omega⟩]
      · rw [if_neg hidx, if_neg (by rintro ⟨_, h⟩; omega), hs2]
  · rw [if_neg (by simpa using hc)] at hfq
    obtain ⟨rfl, rfl⟩ : q.1 = y ∧ q.2 = b := by
      exact ⟨congrArg Prod.fst hfq, congrArg Prod.snd hfq⟩
    have hne : p.2.year ≠ q.1 := fun he => hc he.symm
    refine ⟨?_, ?_, ?_, ?_⟩
    · rw [bucketLen_append, if_neg (by tauto), hb1]
    · rw [bucketLen_append, if_neg (by tauto), hb2]
    · intro i; rw [specSlot_append, if_neg (by tauto), hs1]
    · intro i; rw [specSlot_append, if_neg (by tauto), hs2]

theorem bucketInv_init (tn tx : List Value) (dates : List Date) :
    BucketInv tn tx [] (yearlyInit dates) := by
  intro y b hmem
  have hb := mem_yearlyInit dates (y, b) hmem
  simp only at hb
  subst hb
  refine ⟨?_, ?_, fun i => ?_, fun i => ?_⟩
  · simp [bucketLen]
  · simp [bucketLen]
  · show (List.replicate 365 (none : Option Value)).getD i none = _
    rw [getD_replicate_none]
    simp [specSlot]
  · show (List.replicate 365 (none : Option Value)).getD i none = _
    rw [getD_replicate_none]
    simp [specSlot]

theorem bucketInv_foldl (tn tx : List Value) :
    ∀ (todo : List (Nat × Date)) (done : List (Nat × Date))
      (m : List (Nat × YearBuckets)),
      BucketInv tn tx done m → (∀ p ∈ todo, ValidDate p.2) →
      BucketInv tn tx (done ++ todo) (todo.foldl (populateStep tn tx) m) := by
  intro todo
  induction todo with
  | nil => intro done m h _; simpa using h
  | cons p rest ih =>
      intro done m h hv
      rw [List.foldl_cons]
      have hstep := ih (done ++ [p]) (populateStep tn tx m p)
        (bucketInv_step tn tx done m p (hv p (by simp)) h)
        (fun q hq => hv q (by simp [hq]))
      rw [List.append_assoc] at hstep
      simpa using hstep

theorem enum_any366 (l : List Date) (y : Nat) :
    (l.enum.any fun p => p.2.year == y && dayOfYear p.2 == 366) =
      l.any fun d => d.year == y && dayOfYear d == 366 :=
  enumFrom_any l (fun d => d.year == y && dayOfYear d == 366) 0

/-- C1 (amended): for a series of structurally valid timestamps, each year's
min and max buckets have length 365 when the year has no day-of-year-366
sample and length 366 when it does; each slot holds the value of the last
sample written at its day-of-year (so a day-of-year-366 sample is stored at
0-based index 365, extending the bucket, rather than dropped). -/
theorem yearStacking_bucket_shape (r : SpartacusResult)
    (hv : ∀ d ∈ r.timestamps, ValidDate d) :
    ∀ y b, (y, b) ∈ yearlyData r →
      b.minTemps.length =
        (if r.timestamps.any (fun d => d.year == y && dayOfYear d == 366)
         then 366 else 365) ∧
      b.maxTemps.length =
        (if r.timestamps.any (fun d => d.year == y && dayOfYear d == 366)
         then 366 else 365) ∧
      (∀ i, b.minTemps.getD i none = specSlot r.timestamps.enum r.tn y i) ∧
      (∀ i, b.maxTemps.getD i none = specSlot r.timestamps.enum r.tx y i) := by
  have hval : ∀ p ∈ r.timestamps.enum, ValidDate p.2 := by
    intro p hp
    exact enumFrom_snd_valid r.timestamps ValidDate hv 0 p (by simpa [List.enum] using hp)
  have hinv := bucketInv_foldl r.tn r.tx r.timestamps.enum [] (yearlyInit r.timestamps)
    (bucketInv_init _ _ _) hval
  rw [List.nil_append] at hinv
  intro y b hb
  obtain ⟨h1, h2, h3, h4⟩ := hinv y b (by unfold yearlyData at hb; exact hb)
  have hlen : bucketLen r.timestamps.enum y =
      (if r.timestamps.any (fun d => d.year == y && dayOfYear d == 366)
       then 366 else 365) := by
    unfold bucketLen
    rw [enum_any366]
  exact ⟨by rw [h1, hlen], by rw [h2, hlen], h3, h4⟩

/-- Witness for the C1 theorem at the concrete leap-day series. -/
theorem yearStacking_bucket_shape_witness :
    (∀ d ∈ leapDaySeries.timestamps, ValidDate d) ∧
    (∀ y b, (y, b) ∈ yearlyData leapDaySeries →
      b.minTemps.length =
        (if leapDaySeries.timestamps.any (fun d => d.year == y && dayOfYear d == 366)
         then 366 else 365) ∧
      b.maxTemps.length =
        (if leapDaySeries.timestamps.any (fun d => d.year == y && dayOfYear d == 366)
         then 366 else 365) ∧
      (∀ i, b.minTemps.getD i none = specSlot leapDaySeries.timestamps.enum leapDaySeries.tn y i) ∧
      (∀ i, b.maxTemps.getD i none = specSlot leapDaySeries.timestamps.enum leapDaySeries.tx y i)) :=
  ⟨by decide, yearStacking_bucket_shape leapDaySeries (by decide)⟩

/-- C1 counterexample: on the series holding only Dec 31, 2020 (day-of-year
366), the 2020 bucket does not have length 365 — it has length 366 and the
sample's value sits at index 365 instead of being dropped. -/
theorem yearStacking_counterexample :
    ((yearlyData leapDaySeries).all fun p => p.2.minTemps.length == 365) = false ∧
    (yearlyData leapDaySeries).map
        (fun p => (p.1, p.2.minTemps.length, p.2.minTemps.getD 365 none)) =
      [(2020, 366, some 7)] := by
  constructor
  · decide
  · decide

theorem keys_updateYear (y : Nat) (f : YearBuckets → YearBuckets) :
    ∀ m : List (Nat × YearBuckets),
      (updateYear m y f).map Prod.fst = m.map Prod.fst := by
  intro m
  induction m with
  | nil => rfl
  | cons q rest ih =>
      simp only [updateYear, List.map_cons] at ih ⊢
      rw [ih]
      congr 1
      split <;> rfl

theorem keys_populate (tn tx : List Value) :
    ∀ (samples : List (Nat × Date)) (m : List (Nat × YearBuckets)),
      (samples.foldl (populateStep tn tx) m).map Prod.fst = m.map Prod.fst := by
  intro samples
  induction samples with
  | nil => intro m; rfl
  | cons p rest ih =>
      intro m
      rw [List.foldl_cons, ih]
      exact keys_updateYear _ _ _

theorem mem_keys_yearlyInit (y : Nat) :
    ∀ (dates : List Date) (acc : List (Nat × YearBuckets)),
      (y ∈ (dates.foldl
          (fun acc d =>
            if acc.any (fun p => p.1 == d.year) then acc
            else acc ++ [(d.year, ⟨List.replicate 365 none, List.replicate 365 none⟩)])
          acc).map Prod.fst) ↔
        (y ∈ acc.map Prod.fst ∨ ∃ d ∈ dates, d.year = y) := by
  intro dates
  induction dates with
  | nil => intro acc; simp
  | cons d rest ih =>
      intro acc
      rw [List.foldl_cons, ih]
      by_cases hany : acc.any (fun p => p.1 == d.year) = true
      · rw [if_pos hany]
        have hmem : d.year ∈ acc.map Prod.fst := by
          obtain ⟨p, hp, hbe⟩ := List.any_eq_true.1 hany
          have hfst : p.1 = d.year := by simpa using hbe
          exact hfst ▸ List.mem_map.2 ⟨p, hp, rfl⟩
        constructor
        · rintro (h | ⟨d', hd', hy⟩)
          · exact Or.inl h
          · exact Or.inr ⟨d', List.mem_cons.2 (Or.inr hd'), hy⟩
        · rintro (h | ⟨d', hd', hy⟩)
          · exact Or.inl h
          · rcases List.mem_cons.1 hd' with hd' | hd'
            · subst hd'; exact Or.inl (hy ▸ hmem)
            · exact Or.inr ⟨d', hd', hy⟩
      · rw [if_neg hany]
        simp only [List.map_append, List.mem_append, List.map_cons, List.map_nil,
          List.mem_singleton]
        constructor
        · rintro ((h | h) | ⟨d', hd', hy⟩)
          · exact Or.inl h
          · exact Or.inr ⟨d, List.mem_cons.2 (Or.inl rfl), h.symm⟩
          · exact Or.inr ⟨d', List.mem_cons.2 (Or.inr hd'), hy⟩
        · rintro (h | ⟨d', hd', hy⟩)
          · exact Or.inl (Or.inl h)
          · rcases List.mem_cons.1 hd' with hd' | hd'
            · subst hd'; exact Or.inl (Or.inr hy.symm)
            · exact Or.inr ⟨d', hd', hy⟩

theorem nodup_keys_yearlyInit :
    ∀ (dates : List Date) (acc : List (Nat × YearBuckets)),
      (acc.map Prod.fst).Nodup →
      ((dates.foldl
          (fun acc d =>
            if acc.any (fun p => p.1 == d.year) then acc
            else acc ++ [(d.year, ⟨List.replicate 365 none, List.replicate 365 none⟩)])
          acc).map Prod.fst).Nodup := by
  intro dates
  induction dates with
  | nil => intro acc h; exact h
  | cons d rest ih =>
      intro acc hacc
      rw [List.foldl_cons]
      by_cases hany : acc.any (fun p => p.1 == d.year) = true
      · rw [if_pos hany]; exact ih acc hacc
      · rw [if_neg hany]
        refine ih _ ?_
        have hnot : d.year ∉ acc.map Prod.fst := by
          intro hmem
          obtain ⟨p, hp, hfst⟩ := List.mem_map.1 hmem
          exact hany (List.any_eq_true.2 ⟨p, hp, by simp [hfst]⟩)
        rw [List.map_append]
        rw [List.nodup_append]
        refine ⟨hacc, by simp, ?_⟩
        intro a ha hb
        simp only [List.map_cons, List.map_nil, List.mem_singleton] at hb
        exact hnot (hb ▸ ha)

theorem sortedYears_twoYears (r : SpartacusResult)
    (h1 : ∀ d ∈ r.timestamps, d.year = 2020 ∨ d.year = 2021)
    (h2 : ∃ d ∈ r.timestamps, d.year = 2020)
    (h3 : ∃ d ∈ r.timestamps, d.year = 2021) :
    sortedYears (yearlyData r) = [2020, 2021] := by
  have hkeys : (yearlyData r).map Prod.fst = (yearlyInit r.timestamps).map Prod.fst := by
    unfold yearlyData
    exact keys_populate r.tn r.tx r.timestamps.enum (yearlyInit r.timestamps)
  have hmem : ∀ a, a ∈ (yearlyInit r.timestamps).map Prod.fst ↔ a ∈ [2020, 2021] := by
    intro a
    have hi : a ∈ (yearlyInit r.timestamps).map Prod.fst ↔
        (a ∈ ([] : List (Nat × YearBuckets)).map Prod.fst ∨
          ∃ d ∈ r.timestamps, d.year = a) :=
      mem_keys_yearlyInit a r.timestamps []
    rw [hi]
    constructor
    · rintro (h | ⟨d, hd, rfl⟩)
      · simp at h
      · rcases h1 d hd with h | h <;> simp [h]
    · intro h
      rcases (by simpa using h : a = 2020 ∨ a = 2021) with rfl | rfl
      · obtain ⟨d, hd, hy⟩ := h2
        exact Or.inr ⟨d, hd, hy⟩
      · obtain ⟨d, hd, hy⟩ := h3
        exact Or.inr ⟨d, hd, hy⟩
  have hnd : ((yearlyInit r.timestamps).map Prod.fst).Nodup :=
    nodup_keys_yearlyInit r.timestamps [] (by simp)
  have hperm : List.Perm ((yearlyData r).map Prod.fst) [2020, 2021] := by
    rw [hkeys]
    exact (List.perm_ext_iff_of_nodup hnd (by decide)).2 hmem
  unfold sortedYears
  have hs1 : List.Sorted (· ≤ ·)
      (List.insertionSort (· ≤ ·) ((yearlyData r).map Prod.fst)) :=
    List.sorted_insertionSort _ _
  have hs2 : List.Sorted (· ≤ ·) ([2020, 2021] : List Nat) := by decide
  exact List.eq_of_perm_of_sorted
    ((List.perm_insertionSort _ _).trans hperm) hs1 hs2

/-- C2: for a series whose timestamps cover exactly the years 2020 and 2021,
stack-years with first/last-year on and both min and max on emits exactly 4
datasets labelled min-2020, min-2021, max-2020, max-2021 in that order: all
minimum datasets precede all maximum datasets, years ascending within each
group. -/
theorem stackedDatasets_fourDatasets (r : SpartacusResult)
    (h1 : ∀ d ∈ r.timestamps, d.year = 2020 ∨ d.year = 2021)
    (h2 : ∃ d ∈ r.timestamps, d.year = 2020)
    (h3 : ∃ d ∈ r.timestamps, d.year = 2021) :
    (stackedDatasets r true true true).length = 4 ∧
    (stackedDatasets r true true true).map (fun ds => ds.label) =
      ["Min Temp 2020", "Min Temp 2021", "Max Temp 2020", "Max Temp 2021"] := by
  have hys := sortedYears_twoYears r h1 h2 h3
  unfold stackedDatasets
  rw [hys]
  exact ⟨rfl, rfl⟩

/-- Witness for the C2 theorem at a concrete two-year series. -/
theorem stackedDatasets_fourDatasets_witness :
    (∀ d ∈ twoYearSeries.timestamps, d.year = 2020 ∨ d.year = 2021) ∧
    (∃ d ∈ twoYearSeries.timestamps, d.year = 2020) ∧
    (∃ d ∈ twoYearSeries.timestamps, d.year = 2021) ∧
    ((stackedDatasets twoYearSeries true true true).length = 4 ∧
      (stackedDatasets twoYearSeries true true true).map (fun ds => ds.label) =
        ["Min Temp 2020", "Min Temp 2021", "Max Temp 2020", "Max Temp 2021"]) :=
  ⟨by decide, by decide, by decide,
    stackedDatasets_fourDatasets twoYearSeries (by decide) (by decide) (by decide)⟩

/-- C3: in stacked mode the year at ascending index N−1 (the most recent
year) gets opacity exactly 1, and every older index i gets
(1 − (1/N)·(N−i))·0.6 + 0.4, which never falls below 0.4.  `yearOpacity` is
the value interpolated into the `rgba` alpha of the non-recent datasets. -/
theorem yearOpacity_formula (N i : Nat) (hN : 1 ≤ N) :
    yearOpacity N (N - 1) = 1 ∧
    (i < N - 1 →
      yearOpacity N i =
        (1 - (1 / (N : ℚ)) * ((N : ℚ) - (i : ℚ))) * 0.6 + 0.4 ∧
      (0.4 : ℚ) ≤ yearOpacity N i) := by
  constructor
  · simp [yearOpacity]
  · intro hi
    have hne : (i == N - 1) = false := by
      rw [beq_eq_false_iff_ne]
      omega
    have hform : yearOpacity N i =
        (1 - (1 / (N : ℚ)) * ((N : ℚ) - (i : ℚ))) * 0.6 + 0.4 := by
      simp [yearOpacity, hne]
    refine ⟨hform, ?_⟩
    rw [hform]
    have hN1 : (1 : ℚ) ≤ (N : ℚ) := by exact_mod_cast hN
    have hNpos : (0 : ℚ) < (N : ℚ) := by linarith
    have hiN : (i : ℚ) ≤ (N : ℚ) := by
      have hle : i ≤ N := by omega
      exact_mod_cast hle
    have hi0 : (0 : ℚ) ≤ (i : ℚ) := by positivity
    have hker : (1 / (N : ℚ)) * ((N : ℚ) - (i : ℚ)) ≤ 1 := by
      rw [div_mul_eq_mul_div, one_mul, div_le_one hNpos]
      linarith
    have h0 : (0 : ℚ) ≤ 1 - (1 / (N : ℚ)) * ((N : ℚ) - (i : ℚ)) := by linarith
    have hmul : (0 : ℚ) ≤ (1 - (1 / (N : ℚ)) * ((N : ℚ) - (i : ℚ))) * 0.6 :=
      mul_nonneg h0 (by norm_num)
    linarith

/-- Witness for the C3 theorem at N = 3 years, older index i = 1. -/
theorem yearOpacity_formula_witness :
    1 ≤ 3 ∧
    (yearOpacity 3 (3 - 1) = 1 ∧
      (1 < 3 - 1 →
        yearOpacity 3 1 =
          (1 - (1 / ((3 : Nat) : ℚ)) * (((3 : Nat) : ℚ) - ((1 : Nat) : ℚ))) * 0.6 + 0.4 ∧
        (0.4 : ℚ) ≤ yearOpacity 3 1)) :=
  ⟨by norm_num, yearOpacity_formula 3 1 (by norm_num)⟩

/-- C4: when either date input is empty, `loadData` only clears the error and
returns — no fetch is issued, nothing else changes, no error is shown. -/
theorem loadData_skip (s : MainState) (o : FetchOutcome)
    (h : s.startDateValue.length = 0 ∨ s.endDateValue.length = 0) :
    loadData s o = ⟨{ s with error := "" }, false, false⟩ ∧
    errorShown (loadData s o).state = false := by
  have hg : (s.startDateValue.length == 0 || s.endDateValue.length == 0) = true := by
    rcases h with h | h <;> simp [h]
  have h1 : loadData s o = ⟨{ s with error := "" }, false, false⟩ := by
    simp [loadData, hg]
  refine ⟨h1, ?_⟩
  rw [h1]
  rfl

/-- Witness for the C4 theorem at a state with an empty start date. -/
theorem loadData_skip_witness :
    (emptyStartState.startDateValue.length = 0 ∨
      emptyStartState.endDateValue.length = 0) ∧
    (loadData emptyStartState .failure =
        ⟨{ emptyStartState with error := "" }, false, false⟩ ∧
      errorShown (loadData emptyStartState .failure).state = false) :=
  ⟨by decide, loadData_skip emptyStartState .failure (by decide)⟩

/-- C5: when the guard passes and the fetch fails, `loadData` sets the
generic error, ends with the loading flag false (as does the success path),
leaves the stored data and the chart untouched, and does not invoke
`renderCharts`. -/
theorem loadData_failure_behavior (s : MainState) (d : SpartacusResult)
    (h1 : s.startDateValue.length ≠ 0) (h2 : s.endDateValue.length ≠ 0) :
    (loadData s .failure).state.error = genericError ∧
    (loadData s .failure).state.isLoading = false ∧
    (loadData s (.success d)).state.isLoading = false ∧
    (loadData s .failure).state.data = s.data ∧
    (loadData s .failure).state.chart = s.chart ∧
    (loadData s .failure).rendered = false := by
  have hg : (s.startDateValue.length == 0 || s.endDateValue.length == 0) = false := by
    simp [h1, h2]
  refine ⟨?_, ?_, ?_, ?_, ?_, ?_⟩ <;> simp [loadData, hg]

/-- Witness for the C5 theorem at a filled state with previous data and
chart. -/
theorem loadData_failure_behavior_witness :
    filledState.startDateValue.length ≠ 0 ∧
    filledState.endDateValue.length ≠ 0 ∧
    ((loadData filledState .failure).state.error = genericError ∧
      (loadData filledState .failure).state.isLoading = false ∧
      (loadData filledState (.success leapDaySeries)).state.isLoading = false ∧
      (loadData filledState .failure).state.data = filledState.data ∧
      (loadData filledState .failure).state.chart = filledState.chart ∧
      (loadData filledState .failure).rendered = false) :=
  ⟨by decide, by decide,
    loadData_failure_behavior filledState leapDaySeries (by decide) (by decide)⟩

/-- C6 (amended): a failed geocoding search sets the generic error and leaves
the previously displayed search results unchanged (they are not cleared);
the loading flag is set to false. -/
theorem search_failure_behavior (s : MainState) :
    (search s .failure).error = genericError ∧
    (search s .failure).searchResults = s.searchResults ∧
    (search s .failure).isLoading = false :=
  ⟨rfl, rfl, rfl⟩

/-- C6 counterexample: after a failed search the previously displayed result
list is still there — it does not become empty. -/
theorem search_failure_counterexample :
    (search
        ⟨false, "", [⟨"47.1", "13.5", "Ort"⟩], "2022-01-01", "2024-01-01",
         true, true, true, true, none, none⟩
        .failure).searchResults ≠ [] := by
  decide

/-- C7: the 365 stacked-mode x-axis labels are the first 365 days of year 0,
which moment treats as a leap year: the label at index 59 is "Feb 29", the
sequence ends at "Dec 30", and "Dec 31" never occurs — they are not the 365
days of a non-leap reference year. -/
theorem stackedXLabels_leapYearZero :
    stackedXLabels.length = 365 ∧
    stackedXLabels.get? 59 = some "Feb 29" ∧
    stackedXLabels.get? 364 = some "Dec 30" ∧
    ¬ "Dec 31" ∈ stackedXLabels := by
  refine ⟨by decide, by decide, by decide, by decide⟩

/-- C8: `dateString` renders `getDate() + 1`, so with current year 2026 the
default start input value is "2024-01-02" (not January 1), and a current date
of Oct 11, 2026 renders as "2026-10-12" (not today); on Jan 31 it even
renders the invalid day 32. -/
theorem dateString_rendersNextDay :
    dateString (defaultStartDate 2026) = "2024-01-02" ∧
    dateString (defaultStartDate 2026) ≠ "2024-01-01" ∧
    dateString ⟨2026, 9, 11⟩ = "2026-10-12" ∧
    dateString ⟨2026, 0, 31⟩ = "2026-01-32" := by
  refine ⟨by decide, by decide, by decide, by decide⟩

theorem runCharts_some (calls : List ChartCall) :
    ∀ c : ChartInst, (runCharts (some c) calls).2 = 0 := by
  induction calls with
  | nil => intro c; rfl
  | cons call rest ih =>
      intro c
      simp [runCharts, createChart, ih]

/-- C9: a second `createChart` call on a canvas that already holds a chart
mutates that chart in place (replacing labels, normalized datasets and the
day display format, and bumping the update counter) and constructs nothing;
a first call constructs the instance; over any call sequence on one canvas at
most one construction ever happens — exactly one as soon as there is a call. -/
theorem createChart_reusesInstance (c : ChartInst) (labels : List String)
    (ds : List Dataset) (fmt : String) (call : ChartCall)
    (calls : List ChartCall) :
    createChart (some c) labels ds fmt =
      (some { labels := labels, datasets := normalizeDatasets ds,
              dayFormat := fmt, updates := c.updates + 1 }, false) ∧
    createChart none labels ds fmt =
      (some ⟨labels, normalizeDatasets ds, fmt, 0⟩, true) ∧
    (runCharts none (call :: calls)).2 = 1 ∧
    (runCharts none calls).2 ≤ 1 := by
  have hcount : ∀ (cl : ChartCall) (cls : List ChartCall),
      (runCharts none (cl :: cls)).2 = 1 := by
    intro cl cls
    simp [runCharts, createChart, runCharts_some]
  refine ⟨rfl, rfl, hcount call calls, ?_⟩
  cases calls with
  | nil => simp [runCharts]
  | cons cl cls => rw [hcount cl cls]

/-- C10: `loadData` clears the error before checking the date-field guard, so
even a skipped invocation (empty date input) removes a previously shown
error banner and issues no fetch. -/
theorem loadData_clearsErrorOnSkip (s : MainState) (o : FetchOutcome)
    (h : s.startDateValue.length = 0 ∨ s.endDateValue.length = 0) :
    (loadData s o).state.error = "" ∧
    errorShown (loadData s o).state = false ∧
    (loadData s o).fetched = false := by
  have hg : (s.startDateValue.length == 0 || s.endDateValue.length == 0) = true := by
    rcases h with h | h <;> simp [h]
  refine ⟨?_, ?_, ?_⟩ <;> simp [loadData, errorShown, hg]

/-- Witness for the C10 theorem at a state with an empty end date and a
previously shown error. -/
theorem loadData_clearsErrorOnSkip_witness :
    (emptyEndState.startDateValue.length = 0 ∨
      emptyEndState.endDateValue.length = 0) ∧
    ((loadData emptyEndState .failure).state.error = "" ∧
      errorShown (loadData emptyEndState .failure).state = false ∧
      (loadData emptyEndState .failure).fetched = false) :=
  ⟨by decide, loadData_clearsErrorOnSkip emptyEndState .failure (by decide)⟩
